import Mathlib

/-!
Shallow embedding of `sgallizia/gin-error-handler` (Go): an error-to-response
mapping middleware for gin. Sources: `error_handler.go`, `options.go` and the
package tests.

Error values are modelled by the kinds of Go errors that occur in the package
and its tests:
* `base` — an error created by `errors.New` (`*errorString`): comparable by
  pointer identity (the `id`), no `Is`/`Unwrap` method;
* `wrap` — a single-wrap error (`fmt.Errorf` with `%w`): comparable, with
  `Unwrap() error`;
* `join` — `errors.Join` of two errors (`*joinError`): comparable, with
  `Unwrap() []error`;
* `validation` — `validator.ValidationErrors`: a slice type, hence NOT
  comparable, and it implements neither `Is` nor `Unwrap`;
* `custom` — the test file's `customError`: comparable, with an
  `Is(target)` method that holds when `errors.As(target, &customError{})`
  succeeds, i.e. when the target's chain contains a `custom` error.
-/

namespace GinErrorHandler

inductive GoError where
  | base (id : Nat)
  | wrap (id : Nat) (inner : GoError)
  | join (id : Nat) (left : GoError) (right : GoError)
  | validation (id : Nat)
  | custom (id : Nat)
  deriving DecidableEq, Repr

/-- The dynamic type of an error value, as `reflect.TypeOf` sees it: all
`errors.New` errors share the type `*errorString`, all `validator.ValidationErrors`
values share one slice type, and so on. -/
inductive GoType where
  | baseT
  | wrapT
  | joinT
  | validationT
  | customT
  deriving DecidableEq, Repr

def typeOf : GoError → GoType
  | .base _ => .baseT
  | .wrap _ _ => .wrapT
  | .join _ _ _ => .joinT
  | .validation _ => .validationT
  | .custom _ => .customT

/-- Whether the dynamic type is comparable in Go's sense. `validator.ValidationErrors`
is a slice type, so it is not comparable; `errors.Is` skips `==` for such targets. -/
def isComparable : GoError → Bool
  | .validation _ => false
  | _ => true

/-- Go interface equality `err == target` as guarded inside `errors.Is`:
only attempted when the target's type is comparable. -/
def goEq (err target : GoError) : Bool :=
  isComparable target && err == target

/-- Go `errors.As(target, &customError{})`: does the target's unwrap chain
contain a value of the `customError` type? This is the body of `customError.Is`. -/
def asCustom : GoError → Bool
  | .custom _ => true
  | .wrap _ inner => asCustom inner
  | .join _ a b => asCustom a || asCustom b
  | .base _ => false
  | .validation _ => false

/-- Dispatch of the `Is(error) bool` method: only the test's `customError`
implements it. -/
def isMethodMatches (err target : GoError) : Bool :=
  match err with
  | .custom _ => asCustom target
  | _ => false

/-- The standard library's `errors.Is(err, target)`: at each element of `err`'s
unwrap chain, first try `==` (when the target is comparable), then the element's
own `Is` method, then unwrap. -/
def errsIs : GoError → GoError → Bool
  | e@(.wrap _ inner), t => goEq e t || isMethodMatches e t || errsIs inner t
  | e@(.join _ a b), t => goEq e t || isMethodMatches e t || errsIs a t || errsIs b t
  | e, t => goEq e t || isMethodMatches e t

/-- Pure chain containment: `t` occurs (under Go `==`) in `e`'s transitive
unwrap chain, `e` itself included. This is `errsIs` without the `Is`-method
escape hatch; it expresses the spec's "wrap chain contains" wording. -/
def chainContains : GoError → GoError → Bool
  | e@(.wrap _ inner), t => goEq e t || chainContains inner t
  | e@(.join _ a b), t => goEq e t || chainContains a t || chainContains b t
  | e, t => goEq e t

/-- The match condition of `GetMiddleware` for one marker (`errToMap`):
`errors.Is(lastErr.Err, errToMap) || (reflect.TypeOf(errToMap) ==
reflect.TypeOf(validator.ValidationErrors{}) && reflect.TypeOf(lastErr.Err) ==
reflect.TypeOf(errToMap))`. -/
def errMatches (lastErr errToMap : GoError) : Bool :=
  errsIs lastErr errToMap ||
    (typeOf errToMap == GoType.validationT && typeOf lastErr == typeOf errToMap)

/-- A caller-supplied response-producing function, abstracted to what the
dispatcher can observe of it: an identity and whether invoking it writes a
response to the context (sets `context.Writer.Written()`). -/
structure Producer where
  id : Nat
  writes : Bool
  deriving DecidableEq, Repr

/-- Struct `ErrorMapping` from `error_handler.go`. `toResponseFunc` is a Go function
value and hence nilable: `Map(...)` alone leaves it nil (`none`). -/
structure ErrorMapping where
  fromErrors : List GoError
  toResponseFunc : Option Producer
  deriving DecidableEq, Repr

/-- Struct `Options` from `options.go`; `defaultResponse` is a nilable function. -/
structure Options where
  errMap : List ErrorMapping
  defaultResponse : Option Producer
  deriving DecidableEq, Repr

/-- Struct `ErrorHandler` from `error_handler.go`. -/
structure ErrorHandler where
  errMap : List ErrorMapping
  defaultResponse : Option Producer
  deriving DecidableEq, Repr

/-- Constructor `Map(err ...error)`: creates a mapping from marker errors, with no
response function attached yet. -/
def Map (errs : List GoError) : ErrorMapping :=
  { fromErrors := errs, toResponseFunc := none }

/-- Method `ErrorMapping.ToResponse`: attaches the response function (value receiver,
returns the updated mapping). -/
def ErrorMapping.ToResponse (r : ErrorMapping) (response : Producer) : ErrorMapping :=
  { r with toResponseFunc := some response }

/-- Setter `Options.ErrorMappings`: replaces the mapping list. -/
def Options.ErrorMappings (o : Options) (m : List ErrorMapping) : Options :=
  { o with errMap := m }

/-- Setter `Options.DefaultResponse`: sets the default response function. -/
def Options.DefaultResponse (o : Options) (f : Producer) : Options :=
  { o with defaultResponse := some f }

/-- Method `Options.validate`: fails (returns a non-nil error, `some msg`) exactly
when `defaultResponse` is nil. -/
def Options.validate (o : Options) : Option String :=
  match o.defaultResponse with
  | none => some "defaultResponse is required"
  | some _ => none

/-- Constructor `NewErrorHandler`: validates the options, then copies the mapping list and
default response into the handler. -/
def NewErrorHandler (opts : Options) : Except String ErrorHandler :=
  match opts.validate with
  | some err => .error err
  | none => .ok { errMap := opts.errMap, defaultResponse := opts.defaultResponse }

/-- Whether a mapping matches the recorded error: the inner loop of
`GetMiddleware` over `errorMapping.fromErrors` finds some matching marker.
(The inner loop's break order is unobservable: the producer receives
`lastErr.Err`, not the marker, so `any` is an exact rendering.) -/
def mappingMatches (lastErr : GoError) (m : ErrorMapping) : Bool :=
  m.fromErrors.any (fun errToMap => errMatches lastErr errToMap)

/-- The outer loop of `GetMiddleware` with its `break extFor`: the first
mapping in configured order with a matching marker, if any. -/
def firstMatch : List ErrorMapping → GoError → Option ErrorMapping
  | [], _ => none
  | m :: rest, e => if mappingMatches e m then some m else firstMatch rest e

/-- One observable producer invocation: a mapping's response function called
with the recorded error, or the default response function. -/
inductive Invocation where
  | mapped (producerId : Nat) (arg : GoError)
  | dflt (producerId : Nat)
  deriving DecidableEq, Repr

/-- The `if !context.Writer.Written() { e.defaultResponse(context) }` epilogue,
given the invocations so far and the current written flag. Calling a nil
function value panics (`.error ()`). -/
def invokeDefault (h : ErrorHandler) (invs : List Invocation) (w : Bool) :
    Except Unit (List Invocation × Bool) :=
  if w then .ok (invs, w)
  else
    match h.defaultResponse with
    | none => .error ()
    | some d => .ok (invs ++ [Invocation.dflt d.id], w || d.writes)

/-- The body of the closure returned by `GetMiddleware`, from the point where
`context.Next()` has returned. Inputs: `lastErr` is `context.Errors.Last()`
(the `.Err` of it, when non-nil) and `written` is `context.Writer.Written()`
at that point. Output: the invocations performed in order and the final
written flag, or `.error ()` when a nil function value is called (a panic). -/
def runMiddleware (h : ErrorHandler) (lastErr : Option GoError) (written : Bool) :
    Except Unit (List Invocation × Bool) :=
  match lastErr with
  | none => .ok ([], written)
  | some e =>
    match firstMatch h.errMap e with
    | none => invokeDefault h [] written
    | some m =>
      match m.toResponseFunc with
      | none => .error ()
      | some p => invokeDefault h [Invocation.mapped p.id e] (written || p.writes)

def Invocation.isMapped : Invocation → Bool
  | .mapped _ _ => true
  | .dflt _ => false

def Invocation.isDflt : Invocation → Bool
  | .mapped _ _ => false
  | .dflt _ => true

def hasMapped (invs : List Invocation) : Bool :=
  invs.any Invocation.isMapped

def hasDflt (invs : List Invocation) : Bool :=
  invs.any Invocation.isDflt

def countMapped (invs : List Invocation) : Nat :=
  (invs.filter Invocation.isMapped).length

def countDflt (invs : List Invocation) : Nat :=
  (invs.filter Invocation.isDflt).length

/-! Supporting lemmas about the matching functions. -/

theorem goEq_validation (e : GoError) (i : Nat) :
    goEq e (GoError.validation i) = false := by
  simp [goEq, isComparable]

theorem isMethodMatches_validation (e : GoError) (i : Nat) :
    isMethodMatches e (GoError.validation i) = false := by
  cases e <;> simp [isMethodMatches, asCustom]

/-- Generic chain equivalence (`errors.Is`) never succeeds against a
`validator.ValidationErrors` target: the target is not comparable and nothing
in the chain implements an `Is` method recognising it. -/
theorem errsIs_validation (e : GoError) (i : Nat) :
    errsIs e (GoError.validation i) = false := by
  induction e with
  | base j => simp [errsIs, goEq_validation, isMethodMatches_validation]
  | wrap j inner ih => simp [errsIs, goEq_validation, isMethodMatches_validation, ih]
  | join j a b iha ihb => simp [errsIs, goEq_validation, isMethodMatches_validation, iha, ihb]
  | validation j => simp [errsIs, goEq_validation, isMethodMatches_validation]
  | custom j => simp [errsIs, goEq_validation, isMethodMatches_validation]

/-- Chain containment implies `errors.Is`. -/
theorem errsIs_of_chainContains (e t : GoError) (h : chainContains e t = true) :
    errsIs e t = true := by
  induction e with
  | base i =>
      simp [chainContains] at h
      simp [errsIs, h]
  | wrap i inner ih =>
      simp [chainContains] at h
      rcases h with h | h
      · simp [errsIs, h]
      · simp [errsIs, ih h]
  | join i a b iha ihb =>
      simp [chainContains] at h
      rcases h with (h | h) | h
      · simp [errsIs, h]
      · simp [errsIs, iha h]
      · simp [errsIs, ihb h]
  | validation i =>
      simp [chainContains] at h
      simp [errsIs, h]
  | custom i =>
      simp [chainContains] at h
      simp [errsIs, h]

/-- `errors.Is` can only succeed through chain containment or through an `Is`
method; when the target is outside the recorded error's chain and no `custom`
error occurs in the target's chain, it fails. -/
theorem errsIs_eq_false (e t : GoError) (hc : chainContains e t = false)
    (ha : asCustom t = false) : errsIs e t = false := by
  induction e with
  | base i =>
      simp [chainContains] at hc
      simp [errsIs, isMethodMatches, hc]
  | wrap i inner ih =>
      simp [chainContains] at hc
      simp [errsIs, isMethodMatches, hc.1, ih hc.2]
  | join i a b iha ihb =>
      simp [chainContains] at hc
      simp [errsIs, isMethodMatches, hc.1.1, iha hc.1.2, ihb hc.2]
  | validation i =>
      simp [chainContains] at hc
      simp [errsIs, isMethodMatches, hc]
  | custom i =>
      simp [chainContains] at hc
      simp [errsIs, isMethodMatches, hc, ha]

/-- A mapping returned by the scan is one of the configured mappings. -/
theorem firstMatch_mem (l : List ErrorMapping) (e : GoError) (m : ErrorMapping)
    (h : firstMatch l e = some m) : m ∈ l := by
  induction l with
  | nil => simp [firstMatch] at h
  | cons a rest ih =>
      by_cases hm : mappingMatches e a = true
      · simp [firstMatch, hm] at h
        simp [h]
      · simp [firstMatch, hm] at h
        exact List.mem_cons_of_mem a (ih h)

/-- If no configured mapping matches, the scan finds nothing. -/
theorem firstMatch_eq_none (l : List ErrorMapping) (e : GoError)
    (h : ∀ m ∈ l, mappingMatches e m = false) : firstMatch l e = none := by
  induction l with
  | nil => rfl
  | cons a rest ih =>
      simp [firstMatch, h a (List.mem_cons_self a rest)]
      exact ih fun m hm => h m (List.mem_cons_of_mem a hm)

/-- The scan returns the mapping at the least matching index. -/
theorem firstMatch_eq_get (l : List ErrorMapping) (e : GoError) :
    ∀ (i : Nat) (hi : i < l.length),
      mappingMatches e (l.get ⟨i, hi⟩) = true →
      (∀ (k : Nat) (hk : k < l.length), k < i → mappingMatches e (l.get ⟨k, hk⟩) = false) →
      firstMatch l e = some (l.get ⟨i, hi⟩) := by
  induction l with
  | nil => intro i hi; exact absurd hi (by simp)
  | cons a rest ih =>
      intro i hi hm hfirst
      cases i with
      | zero =>
          simp only [List.get] at hm
          simp [firstMatch, hm, List.get]
      | succ n =>
          have ha : mappingMatches e a = false :=
            hfirst 0 (by simp) (Nat.succ_pos n)
          simp only [List.get] at hm ⊢
          simp only [firstMatch, ha, Bool.false_eq_true, if_false]
          exact ih n (Nat.lt_of_succ_lt_succ hi) hm
            (fun k hk hkn => hfirst (k + 1) (Nat.succ_lt_succ hk) (Nat.succ_lt_succ hkn))

/-! Claim theorems. -/

/-- C3: for every request in which no error was recorded by the downstream
step, the dispatcher invokes no response producer (neither mapped nor
default), writes nothing, and returns immediately: the run yields the empty
invocation list and leaves the written flag unchanged. -/
theorem C3_no_error_no_invocation (h : ErrorHandler) (w : Bool) :
    runMiddleware h none w = .ok ([], w) := rfl

/-- C2 counterexample: a handler with a (writing) default producer configured,
no recorded error and no response yet written returns with an empty invocation
list — the default producer is NOT invoked, contradicting the claim that it
would be. -/
theorem C2_cex_no_error_default_skipped :
    runMiddleware { errMap := [], defaultResponse := some ⟨0, true⟩ } none false
      = .ok ([], false) ∧
    hasDflt [] = false ∧ hasMapped [] = false :=
  ⟨rfl, rfl, rfl⟩

/-- C2 amended: for every request in which the downstream step records no
error, the dispatcher invokes no producer at all — in particular the default
producer is not invoked even when no response has been written — and the
written flag is unchanged. -/
theorem C2_amended_no_error_no_default (h : ErrorHandler) (w : Bool) :
    ∃ r, runMiddleware h none w = .ok r ∧
      hasMapped r.1 = false ∧ hasDflt r.1 = false ∧ r.2 = w :=
  ⟨([], w), rfl, rfl, rfl, rfl⟩

/-- C1 counterexample: with one mapping whose producer does not write and a
default producer, a matching recorded error leads to BOTH the mapped producer
and the default producer being invoked on the same request. -/
theorem C1_cex_both_producers_invoked :
    runMiddleware
        { errMap := [{ fromErrors := [GoError.base 0], toResponseFunc := some ⟨1, false⟩ }],
          defaultResponse := some ⟨2, true⟩ }
        (some (GoError.base 0)) false
      = .ok ([Invocation.mapped 1 (GoError.base 0), Invocation.dflt 2], true) ∧
    hasMapped [Invocation.mapped 1 (GoError.base 0), Invocation.dflt 2] = true ∧
    hasDflt [Invocation.mapped 1 (GoError.base 0), Invocation.dflt 2] = true :=
  ⟨rfl, rfl, rfl⟩

/-- C1 amended: per request at most one mapped-producer invocation and at most
one default invocation occur; both occur on the same request exactly in the
case that no response had been written when the middleware resumed AND the
matched mapping's producer does not write a response — the guard before the
default call tests `context.Writer.Written()`, not whether a mapped producer
was invoked. -/
theorem C1_amended_invocation_discipline (h : ErrorHandler) (lastErr : Option GoError)
    (w0 : Bool) (invs : List Invocation) (w : Bool)
    (hrun : runMiddleware h lastErr w0 = .ok (invs, w)) :
    countMapped invs ≤ 1 ∧ countDflt invs ≤ 1 ∧
    (hasMapped invs = true → hasDflt invs = true →
      w0 = false ∧ ∃ e m p, lastErr = some e ∧ firstMatch h.errMap e = some m ∧
        m.toResponseFunc = some p ∧ p.writes = false) := by
  cases lastErr with
  | none =>
      simp only [runMiddleware, Except.ok.injEq, Prod.mk.injEq] at hrun
      obtain ⟨h1, _⟩ := hrun
      subst h1
      exact ⟨by decide, by decide, fun hm _ => by simp [hasMapped] at hm⟩
  | some e =>
      simp only [runMiddleware] at hrun
      cases hfm : firstMatch h.errMap e with
      | none =>
          simp only [hfm] at hrun
          by_cases hw : w0 = true
          · simp only [invokeDefault, hw, if_true, Except.ok.injEq, Prod.mk.injEq] at hrun
            obtain ⟨h1, _⟩ := hrun
            subst h1
            exact ⟨by decide, by decide, fun hm _ => by simp [hasMapped] at hm⟩
          · cases hd : h.defaultResponse with
            | none =>
                simp [invokeDefault, hw, hd] at hrun
            | some d =>
                simp only [invokeDefault, hw, if_false, hd, Except.ok.injEq,
                  Prod.mk.injEq, Bool.false_eq_true] at hrun
                obtain ⟨h1, _⟩ := hrun
                subst h1
                exact ⟨Nat.zero_le 1, Nat.le_refl 1,
                  fun hm _ => by simp [hasMapped, Invocation.isMapped] at hm⟩
      | some m =>
          simp only [hfm] at hrun
          cases hp : m.toResponseFunc with
          | none =>
              simp only [hp] at hrun
              exact absurd hrun (by simp)
          | some p =>
              simp only [hp] at hrun
              by_cases hw : (w0 || p.writes) = true
              · simp only [invokeDefault, hw, if_true, Except.ok.injEq, Prod.mk.injEq] at hrun
                obtain ⟨h1, _⟩ := hrun
                subst h1
                refine ⟨Nat.le_refl 1, Nat.zero_le 1, fun _ hdfl => ?_⟩
                simp [hasDflt, Invocation.isDflt] at hdfl
              · cases hd : h.defaultResponse with
                | none =>
                    simp [invokeDefault, hw, hd] at hrun
                | some d =>
                    simp only [invokeDefault, hw, if_false, hd, Except.ok.injEq,
                      Prod.mk.injEq, Bool.false_eq_true] at hrun
                    obtain ⟨h1, _⟩ := hrun
                    subst h1
                    have hw2 : w0 = false ∧ p.writes = false := by
                      constructor <;> { revert hw; cases w0 <;> cases p.writes <;> simp }
                    exact ⟨Nat.le_refl 1, Nat.le_refl 1,
                      fun _ _ => ⟨hw2.1, e, m, p, rfl, hfm, hp, hw2.2⟩⟩

/-- C1 amended witness: a concrete run in which the mapped producer does not
write, so both invocations occur, satisfying the amended discipline. -/
theorem C1_amended_invocation_discipline_witness :
    countMapped [Invocation.mapped 1 (GoError.base 0), Invocation.dflt 2] ≤ 1 ∧
    countDflt [Invocation.mapped 1 (GoError.base 0), Invocation.dflt 2] ≤ 1 ∧
    (hasMapped [Invocation.mapped 1 (GoError.base 0), Invocation.dflt 2] = true →
      hasDflt [Invocation.mapped 1 (GoError.base 0), Invocation.dflt 2] = true →
      false = false ∧ ∃ e m p, (some (GoError.base 0) : Option GoError) = some e ∧
        firstMatch [{ fromErrors := [GoError.base 0], toResponseFunc := some ⟨1, false⟩ }] e = some m ∧
        m.toResponseFunc = some p ∧ p.writes = false) :=
  C1_amended_invocation_discipline
    { errMap := [{ fromErrors := [GoError.base 0], toResponseFunc := some ⟨1, false⟩ }],
      defaultResponse := some ⟨2, true⟩ }
    (some (GoError.base 0)) false
    [Invocation.mapped 1 (GoError.base 0), Invocation.dflt 2] true rfl

/-- C7: construction fails with the configuration error exactly when the
default response producer is unset; with a default set (any mapping list,
empty included, and no other validation) it yields a handler holding exactly
the configured mappings and default producer. -/
theorem C7_construction_validation (opts : Options) :
    (opts.defaultResponse = none →
      NewErrorHandler opts = .error "defaultResponse is required") ∧
    (opts.defaultResponse ≠ none →
      NewErrorHandler opts =
        .ok { errMap := opts.errMap, defaultResponse := opts.defaultResponse }) := by
  constructor
  · intro hd
    simp [NewErrorHandler, Options.validate, hd]
  · intro hd
    cases hx : opts.defaultResponse with
    | none => exact absurd hx hd
    | some d => simp [NewErrorHandler, Options.validate, hx]

/-- C7 witness: the constructor rejects an option set without a default and
accepts one with a default and an empty mapping list. -/
theorem C7_construction_validation_witness :
    NewErrorHandler { errMap := [], defaultResponse := none }
      = .error "defaultResponse is required" ∧
    NewErrorHandler { errMap := [], defaultResponse := some ⟨0, true⟩ }
      = .ok { errMap := [], defaultResponse := some ⟨0, true⟩ } :=
  ⟨(C7_construction_validation { errMap := [], defaultResponse := none }).1 rfl,
   (C7_construction_validation { errMap := [], defaultResponse := some ⟨0, true⟩ }).2
     (by decide)⟩

/-- C8: when the recorded error matches no configured mapping and nothing was
written, the default producer is invoked exactly once; when a response was
already written before the fallback check, it is not invoked at all. -/
theorem C8_no_match_default (h : ErrorHandler) (e : GoError) (d : Producer)
    (hd : h.defaultResponse = some d)
    (hnomatch : ∀ m ∈ h.errMap, mappingMatches e m = false) :
    runMiddleware h (some e) false = .ok ([Invocation.dflt d.id], d.writes) ∧
    runMiddleware h (some e) true = .ok ([], true) := by
  have hfm := firstMatch_eq_none h.errMap e hnomatch
  constructor
  · simp [runMiddleware, hfm, invokeDefault, hd]
  · simp [runMiddleware, hfm, invokeDefault]

/-- C8 witness: an empty mapping list with a default producer — any recorded
error triggers exactly one default invocation when unwritten, none when a
response already exists. -/
theorem C8_no_match_default_witness :
    runMiddleware { errMap := [], defaultResponse := some ⟨3, true⟩ }
      (some (GoError.base 0)) false = .ok ([Invocation.dflt 3], true) ∧
    runMiddleware { errMap := [], defaultResponse := some ⟨3, true⟩ }
      (some (GoError.base 0)) true = .ok ([], true) :=
  C8_no_match_default { errMap := [], defaultResponse := some ⟨3, true⟩ }
    (GoError.base 0) ⟨3, true⟩ rfl (fun m hm => absurd hm (List.not_mem_nil m))

/-- C9 counterexample: the constructor accepts a mapping built by `Map` with
no response function attached; when such a mapping matches, the middleware
calls a nil function value — a dispatcher-originated failure (panic), not a
propagated producer failure. -/
theorem C9_cex_nil_producer_failure :
    NewErrorHandler { errMap := [Map [GoError.base 0]], defaultResponse := some ⟨0, true⟩ }
      = .ok { errMap := [Map [GoError.base 0]], defaultResponse := some ⟨0, true⟩ } ∧
    runMiddleware { errMap := [Map [GoError.base 0]], defaultResponse := some ⟨0, true⟩ }
      (some (GoError.base 0)) false = .error () :=
  ⟨rfl, rfl⟩

/-- C9 amended: dispatch never fails of its own for a constructed handler
PROVIDED every mapping's response function is attached; the nil-producer call
is the one dispatcher-originated failure path. -/
theorem C9_amended_no_failure (opts : Options) (h : ErrorHandler)
    (hcons : NewErrorHandler opts = .ok h)
    (hprod : ∀ m ∈ h.errMap, m.toResponseFunc ≠ none)
    (lastErr : Option GoError) (w0 : Bool) :
    ∃ r, runMiddleware h lastErr w0 = .ok r := by
  obtain ⟨d, hd⟩ : ∃ d, h.defaultResponse = some d := by
    cases hx : opts.defaultResponse with
    | none => simp [NewErrorHandler, Options.validate, hx] at hcons
    | some d =>
        simp only [NewErrorHandler, Options.validate, hx, Except.ok.injEq] at hcons
        exact ⟨d, by rw [← hcons]⟩
  cases lastErr with
  | none => exact ⟨([], w0), rfl⟩
  | some e =>
      cases hfm : firstMatch h.errMap e with
      | none =>
          cases hw : w0 with
          | true => exact ⟨([], true), by simp [runMiddleware, hfm, invokeDefault]⟩
          | false =>
              exact ⟨([Invocation.dflt d.id], d.writes),
                by simp [runMiddleware, hfm, invokeDefault, hd]⟩
      | some m =>
          obtain ⟨p, hp⟩ : ∃ p, m.toResponseFunc = some p := by
            cases hx : m.toResponseFunc with
            | none => exact absurd hx (hprod m (firstMatch_mem h.errMap e m hfm))
            | some p => exact ⟨p, rfl⟩
          cases hw : (w0 || p.writes) with
          | true =>
              exact ⟨([Invocation.mapped p.id e], true),
                by simp [runMiddleware, hfm, hp, invokeDefault, hw]⟩
          | false =>
              exact ⟨([Invocation.mapped p.id e, Invocation.dflt d.id], d.writes),
                by simp [runMiddleware, hfm, hp, invokeDefault, hw, hd]⟩

/-- C9 amended witness: a handler whose single mapping has its producer
attached dispatches a matching error without failure. -/
theorem C9_amended_no_failure_witness :
    ∃ r, runMiddleware
      { errMap := [(Map [GoError.base 0]).ToResponse ⟨1, true⟩],
        defaultResponse := some ⟨0, true⟩ }
      (some (GoError.base 0)) false = .ok r :=
  C9_amended_no_failure
    { errMap := [(Map [GoError.base 0]).ToResponse ⟨1, true⟩],
      defaultResponse := some ⟨0, true⟩ }
    { errMap := [(Map [GoError.base 0]).ToResponse ⟨1, true⟩],
      defaultResponse := some ⟨0, true⟩ }
    rfl (by decide) (some (GoError.base 0)) false

/-- Evaluation of the middleware when the scan finds a mapping with an
attached producer and a default producer is configured. -/
theorem runMiddleware_matched (h : ErrorHandler) (e : GoError) (m : ErrorMapping)
    (p d : Producer) (w0 : Bool)
    (hfm : firstMatch h.errMap e = some m) (hp : m.toResponseFunc = some p)
    (hd : h.defaultResponse = some d) :
    runMiddleware h (some e) w0 =
      if (w0 || p.writes) then .ok ([Invocation.mapped p.id e], w0 || p.writes)
      else .ok ([Invocation.mapped p.id e, Invocation.dflt d.id], d.writes) := by
  simp only [runMiddleware, hfm, hp, invokeDefault, hd]
  cases w0 <;> cases p.writes <;> simp

/-- C4: when the recorded error matches the mapping at index `i` and no
mapping of lower index matches, only that mapping's producer is invoked among
the mapped producers, and with the original recorded error as argument — even
when later mappings would also match. -/
theorem C4_first_matching_mapping_wins (h : ErrorHandler) (e : GoError)
    (i : Nat) (hi : i < h.errMap.length) (d : Producer)
    (hd : h.defaultResponse = some d)
    (hm : mappingMatches e (h.errMap.get ⟨i, hi⟩) = true)
    (hfirst : ∀ (k : Nat) (hk : k < h.errMap.length), k < i →
      mappingMatches e (h.errMap.get ⟨k, hk⟩) = false)
    (p : Producer) (hp : (h.errMap.get ⟨i, hi⟩).toResponseFunc = some p)
    (w0 : Bool) :
    ∃ invs w, runMiddleware h (some e) w0 = .ok (invs, w) ∧
      invs.filter Invocation.isMapped = [Invocation.mapped p.id e] := by
  have hfm := firstMatch_eq_get h.errMap e i hi hm hfirst
  have hrun := runMiddleware_matched h e (h.errMap.get ⟨i, hi⟩) p d w0 hfm hp hd
  cases hw : (w0 || p.writes) with
  | true =>
      refine ⟨[Invocation.mapped p.id e], true, ?_, rfl⟩
      rw [hrun, hw]
      simp
  | false =>
      refine ⟨[Invocation.mapped p.id e, Invocation.dflt d.id], d.writes, ?_, rfl⟩
      rw [hrun, hw]
      simp

/-- C4 witness: two mappings whose markers both match the recorded error; only
the first one's producer is invoked, with the recorded error. -/
theorem C4_first_matching_mapping_wins_witness :
    ∃ invs w,
      runMiddleware
        { errMap := [{ fromErrors := [GoError.base 0], toResponseFunc := some ⟨1, true⟩ },
                     { fromErrors := [GoError.base 0], toResponseFunc := some ⟨2, true⟩ }],
          defaultResponse := some ⟨0, true⟩ }
        (some (GoError.base 0)) false = .ok (invs, w) ∧
      invs.filter Invocation.isMapped = [Invocation.mapped 1 (GoError.base 0)] :=
  C4_first_matching_mapping_wins
    { errMap := [{ fromErrors := [GoError.base 0], toResponseFunc := some ⟨1, true⟩ },
                 { fromErrors := [GoError.base 0], toResponseFunc := some ⟨2, true⟩ }],
      defaultResponse := some ⟨0, true⟩ }
    (GoError.base 0) 0 (by decide) ⟨0, true⟩ rfl (by decide)
    (fun k hk hk0 => absurd hk0 (Nat.not_lt_zero k)) ⟨1, true⟩ rfl false

/-- C5: a recorded wrapped/composed error whose transitive wrap chain contains
a configured marker makes the mapping holding that marker match; when that
mapping is the first match, its producer is invoked with the recorded error:
the matching rule traverses the wrap chain. -/
theorem C5_wrapped_chain_match (e marker : GoError) (m : ErrorMapping)
    (hmem : marker ∈ m.fromErrors) (hchain : chainContains e marker = true)
    (h : ErrorHandler) (i : Nat) (hi : i < h.errMap.length)
    (hmi : h.errMap.get ⟨i, hi⟩ = m)
    (hfirst : ∀ (k : Nat) (hk : k < h.errMap.length), k < i →
      mappingMatches e (h.errMap.get ⟨k, hk⟩) = false)
    (d : Producer) (hd : h.defaultResponse = some d)
    (p : Producer) (hp : m.toResponseFunc = some p) (w0 : Bool) :
    mappingMatches e m = true ∧
    ∃ invs w, runMiddleware h (some e) w0 = .ok (invs, w) ∧
      Invocation.mapped p.id e ∈ invs := by
  have hmatch : mappingMatches e m = true := by
    have hIs := errsIs_of_chainContains e marker hchain
    simp only [mappingMatches, List.any_eq_true]
    exact ⟨marker, hmem, by simp [errMatches, hIs]⟩
  refine ⟨hmatch, ?_⟩
  have hfm := firstMatch_eq_get h.errMap e i hi (by rw [hmi]; exact hmatch) hfirst
  rw [hmi] at hfm
  have hrun := runMiddleware_matched h e m p d w0 hfm hp hd
  cases hw : (w0 || p.writes) with
  | true =>
      refine ⟨[Invocation.mapped p.id e], true, ?_, by simp⟩
      rw [hrun, hw]
      simp
  | false =>
      refine ⟨[Invocation.mapped p.id e, Invocation.dflt d.id], d.writes, ?_, by simp⟩
      rw [hrun, hw]
      simp

/-- C5 witness: the recorded error is `errors.Join(base 0, base 1)` and the
marker is `base 0` (the test scenario for wrapped errors): the mapping matches
and its producer receives the joined error. -/
theorem C5_wrapped_chain_match_witness :
    mappingMatches (GoError.join 2 (GoError.base 0) (GoError.base 1))
        { fromErrors := [GoError.base 0], toResponseFunc := some ⟨1, true⟩ } = true ∧
    ∃ invs w,
      runMiddleware
        { errMap := [{ fromErrors := [GoError.base 0], toResponseFunc := some ⟨1, true⟩ }],
          defaultResponse := some ⟨0, true⟩ }
        (some (GoError.join 2 (GoError.base 0) (GoError.base 1))) false = .ok (invs, w) ∧
      Invocation.mapped 1 (GoError.join 2 (GoError.base 0) (GoError.base 1)) ∈ invs :=
  C5_wrapped_chain_match (GoError.join 2 (GoError.base 0) (GoError.base 1))
    (GoError.base 0)
    { fromErrors := [GoError.base 0], toResponseFunc := some ⟨1, true⟩ }
    (by decide) (by decide)
    { errMap := [{ fromErrors := [GoError.base 0], toResponseFunc := some ⟨1, true⟩ }],
      defaultResponse := some ⟨0, true⟩ }
    0 (by decide) rfl (fun k hk hk0 => absurd hk0 (Nat.not_lt_zero k))
    ⟨0, true⟩ rfl ⟨1, true⟩ rfl false

/-- C6: generic chain equivalence (`errors.Is`) never succeeds against a
`validator.ValidationErrors` marker; such a marker matches a recorded error
exactly when the recorded error has the same dynamic type, regardless of
either value's contents; and for a marker of any other kind the match
condition is plain `errors.Is` — the type-based fallback applies to no other
error kind. -/
theorem C6_validation_type_fallback :
    (∀ (e : GoError) (i : Nat), errsIs e (GoError.validation i) = false) ∧
    (∀ (e : GoError) (i : Nat),
      errMatches e (GoError.validation i) = true ↔ typeOf e = GoType.validationT) ∧
    (∀ (e t : GoError), typeOf t ≠ GoType.validationT → errMatches e t = errsIs e t) := by
  refine ⟨errsIs_validation, ?_, ?_⟩
  · intro e i
    simp [errMatches, errsIs_validation, typeOf]
  · intro e t ht
    have hb : (typeOf t == GoType.validationT) = false := by
      rcases hq : typeOf t <;> simp_all
    simp [errMatches, hb]

/-- C6 witness: two validation errors with different contents match; a base
error does not match a validation marker; for a non-validation marker the
condition coincides with `errors.Is`. -/
theorem C6_validation_type_fallback_witness :
    errsIs (GoError.validation 5) (GoError.validation 0) = false ∧
    (errMatches (GoError.validation 5) (GoError.validation 0) = true ↔
      typeOf (GoError.validation 5) = GoType.validationT) ∧
    errMatches (GoError.base 1) (GoError.base 0) = errsIs (GoError.base 1) (GoError.base 0) :=
  ⟨C6_validation_type_fallback.1 (GoError.validation 5) 0,
   C6_validation_type_fallback.2.1 (GoError.validation 5) 0,
   C6_validation_type_fallback.2.2 (GoError.base 1) (GoError.base 0) (by decide)⟩

/-- C10: matching is asymmetric — only the recorded error's chain is
unwrapped, never the marker's. If the marker `m` is a wrapped/composed error
whose chain contains the recorded error `e`, while `e`'s own chain does not
contain `m`, the validation type fallback does not apply, and no custom-`Is`
error occurs in `m`'s chain, then `e` does not match `m`. -/
theorem C10_match_asymmetric (e m : GoError)
    (hwrapped : typeOf m = GoType.wrapT ∨ typeOf m = GoType.joinT)
    (_hcontains : chainContains m e = true)
    (hrev : chainContains e m = false)
    (_hval : ¬(typeOf m = GoType.validationT ∧ typeOf e = typeOf m))
    (hcust : asCustom m = false) :
    errMatches e m = false := by
  have h1 : errsIs e m = false := errsIs_eq_false e m hrev hcust
  have h2 : (typeOf m == GoType.validationT && typeOf e == typeOf m) = false := by
    rcases hwrapped with hw | hw <;> simp [hw]
  simp [errMatches, h1, h2]

/-- C10 witness: marker `wrap 1 (base 0)` wraps the recorded error `base 0`,
yet `base 0` does not match it. -/
theorem C10_match_asymmetric_witness :
    chainContains (GoError.wrap 1 (GoError.base 0)) (GoError.base 0) = true ∧
    errMatches (GoError.base 0) (GoError.wrap 1 (GoError.base 0)) = false :=
  ⟨by decide,
   C10_match_asymmetric (GoError.base 0) (GoError.wrap 1 (GoError.base 0))
     (Or.inl rfl) (by decide) (by decide) (by decide) (by decide)⟩

end GinErrorHandler
